import Mathlib

/-!
# openCMD: configuration loading, logger field merging, database singletons

A shallow embedding of `internal/config/config.go`, `internal/log/log.go`
(`WithFields`), `internal/db/mysql.go` and `internal/db/sqlite.go`.

Conventions of the embedding:

* Go `int` fields are `Int` (no arithmetic is performed on them, only
  comparisons with constants, so the machine width plays no role);
* Go `error` results are `Option String`: `none` is `nil`, `some msg` is an
  error carrying the text produced by `fmt.Errorf`;
* pointer receivers (`func (c *Config) ...`) are explicit state passing: the
  function takes the pointed-to struct and returns it after the call;
* package-level variables are fields of an explicit state structure;
* the file system, the YAML decoder and the database driver are parameters.
-/

namespace OpenCMD

/-! ## `internal/config/config.go`: the data model -/

/-- The Go struct `ServerConfig`. -/
structure ServerConfig where
  Port : Int
  Host : String
  Timeout : String
  DBType : String
deriving DecidableEq

/-- The Go struct `Lumberjack`. -/
structure Lumberjack where
  Rotate : Bool
  Filename : String
  MaxSize : Int
  MaxBackups : Int
  MaxAge : Int
  Compress : Bool
deriving DecidableEq

/-- The Go struct `LogsConfig`. -/
structure LogsConfig where
  Level : String
  Format : String
  Console : Bool
  File : Bool
  Dir : String
  Lumberjack : Lumberjack
deriving DecidableEq

/-- The Go struct `MysqlConfig`. -/
structure MysqlConfig where
  Host : String
  Port : Int
  User : String
  Password : String
  DBName : String
deriving DecidableEq

/-- The Go struct `SqliteConfig`. -/
structure SqliteConfig where
  FileName : String
deriving DecidableEq

/-- The Go struct `TencentConfig`. -/
structure TencentConfig where
  AppID : String
  AppKey : String
deriving DecidableEq

/-- The Go struct `AWSConfig`. -/
structure AWSConfig where
  Region : String
  AccessKey : String
  SecretKey : String
deriving DecidableEq

/-- The Go struct `AliyunConfig`. -/
structure AliyunConfig where
  Region : String
  AccessKey : String
  SecretKey : String
deriving DecidableEq

/-- The Go struct `Config`. -/
structure Config where
  Server : ServerConfig
  Logs : LogsConfig
  MySQL : MysqlConfig
  Sqlite : SqliteConfig
  Tencent : TencentConfig
  AWS : AWSConfig
  Aliyun : AliyunConfig
deriving DecidableEq

/-- `NewConfig()`: the struct `Config{}` in which every field has its Go zero
value (`0`, `""`, `false`). -/
def NewConfig : Config :=
  { Server := { Port := 0, Host := "", Timeout := "", DBType := "" }
    Logs := { Level := "", Format := "", Console := false, File := false, Dir := "",
              Lumberjack := { Rotate := false, Filename := "", MaxSize := 0,
                              MaxBackups := 0, MaxAge := 0, Compress := false } }
    MySQL := { Host := "", Port := 0, User := "", Password := "", DBName := "" }
    Sqlite := { FileName := "" }
    Tencent := { AppID := "", AppKey := "" }
    AWS := { Region := "", AccessKey := "", SecretKey := "" }
    Aliyun := { Region := "", AccessKey := "", SecretKey := "" } }

/-! ## Defaults -/

/-- `(*Config).ServerDefault`: the four guarded assignments followed by the
coercion of an unknown database type, in source order. -/
def ServerDefault (c : Config) : Config :=
  let c := if c.Server.Port = 0 then { c with Server := { c.Server with Port := 8080 } } else c
  let c := if c.Server.Host = "" then { c with Server := { c.Server with Host := "0.0.0.0" } } else c
  let c := if c.Server.Timeout = "" then { c with Server := { c.Server with Timeout := "5s" } } else c
  let c := if c.Server.DBType = "" then { c with Server := { c.Server with DBType := "mysql" } } else c
  let c := if c.Server.DBType ≠ "mysql" ∧ c.Server.DBType ≠ "sqlite"
    then { c with Server := { c.Server with DBType := "mysql" } } else c
  c

/-- `(*Config).LogsDefault`: ten guarded assignments in source order. -/
def LogsDefault (c : Config) : Config :=
  let c := if c.Logs.Level = "" then { c with Logs := { c.Logs with Level := "info" } } else c
  let c := if c.Logs.Dir = "" then { c with Logs := { c.Logs with Dir := "logs/" } } else c
  let c := if c.Logs.Lumberjack.Filename = ""
    then { c with Logs := { c.Logs with Lumberjack := { c.Logs.Lumberjack with Filename := "openCMD.log" } } }
    else c
  let c := if c.Logs.Format = "" then { c with Logs := { c.Logs with Format := "json" } } else c
  let c := if !c.Logs.Console then { c with Logs := { c.Logs with Console := true } } else c
  let c := if !c.Logs.Lumberjack.Rotate
    then { c with Logs := { c.Logs with Lumberjack := { c.Logs.Lumberjack with Rotate := true } } }
    else c
  let c := if !c.Logs.Lumberjack.Compress
    then { c with Logs := { c.Logs with Lumberjack := { c.Logs.Lumberjack with Compress := true } } }
    else c
  let c := if c.Logs.Lumberjack.MaxSize = 0
    then { c with Logs := { c.Logs with Lumberjack := { c.Logs.Lumberjack with MaxSize := 100 } } }
    else c
  let c := if c.Logs.Lumberjack.MaxBackups = 0
    then { c with Logs := { c.Logs with Lumberjack := { c.Logs.Lumberjack with MaxBackups := 7 } } }
    else c
  let c := if c.Logs.Lumberjack.MaxAge = 0
    then { c with Logs := { c.Logs with Lumberjack := { c.Logs.Lumberjack with MaxAge := 7 } } }
    else c
  c

/-- `(*Config).mysqlDefault`: the MySQL block is filled in only when the
database type is `"mysql"`, the SQLite file name only when it is `"sqlite"`. -/
def mysqlDefault (c : Config) : Config :=
  if c.Server.DBType = "mysql" then
    let c := if c.MySQL.Host = "" then { c with MySQL := { c.MySQL with Host := "localhost" } } else c
    let c := if c.MySQL.Port = 0 then { c with MySQL := { c.MySQL with Port := 3306 } } else c
    let c := if c.MySQL.User = "" then { c with MySQL := { c.MySQL with User := "root" } } else c
    let c := if c.MySQL.Password = "" then { c with MySQL := { c.MySQL with Password := "123456" } } else c
    let c := if c.MySQL.DBName = "" then { c with MySQL := { c.MySQL with DBName := "openCMD" } } else c
    c
  else if c.Server.DBType = "sqlite" then
    let c := if c.Sqlite.FileName = "" then { c with Sqlite := { c.Sqlite with FileName := "openCMD.db" } } else c
    c
  else c

/-- `(*Config).SetDefault`: server, then database, then logging defaults. -/
def SetDefault (c : Config) : Config :=
  LogsDefault (mysqlDefault (ServerDefault c))

/-! ## Validation -/

/-- `(*Config).ValidateConfig`, with the receiver threaded through: the first
component is the struct behind the receiver after the call, the second the
returned error. -/
def ValidateConfig (c : Config) : Config × Option String :=
  if c.Server.Port ≤ 0 ∨ c.Server.Port > 65535 then
    (c, some ("invalid server port: " ++ toString c.Server.Port))
  else if c.Server.Host = "" then
    (c, some "server host cannot be empty")
  else if c.MySQL.Host = "" then
    (c, some "db host cannot be empty")
  else if c.MySQL.Port = 0 then
    (c, some "db port cannot be zero")
  else if c.MySQL.User = "" then
    (c, some "db user cannot be empty")
  else if c.MySQL.Password = "" then
    (c, some "db password cannot be empty")
  else if c.MySQL.DBName = "" then
    (c, some "db name cannot be empty")
  else
    (c, none)

/-! ## Loading and the published snapshot -/

/-- What `LoadConfig` consults outside the program: `os.Stat`, `os.ReadFile`
and `yaml.Unmarshal`. -/
structure FileSystem where
  /-- The value of `os.IsNotExist(err)` for the error `os.Stat(path)` returns. -/
  statNotExist : String → Bool
  /-- The function `os.ReadFile`: the file content, or the text of the error. -/
  readFile : String → Except String String
  /-- The function `yaml.Unmarshal(data, config)`: the struct behind `config`
  after decoding `data` into it, or the text of the error. -/
  unmarshal : String → Config → Except String Config

/-- `LoadConfig(path)`. The argument `c` is the package variable `c *Config`
before the call (`none` is the nil pointer); the result is the variable after
the call together with the returned error. -/
def LoadConfig (fs : FileSystem) (path : String) (c : Option Config) :
    Option Config × Option String :=
  if fs.statNotExist path then
    (c, some ("config file not found: " ++ path))
  else
    match fs.readFile path with
    | .error err => (c, some ("failed to read config file: " ++ err))
    | .ok data =>
      let config := NewConfig
      match fs.unmarshal data config with
      | .error err => (c, some ("failed to parse config file: " ++ err))
      | .ok config =>
        let config := SetDefault config
        match ValidateConfig config with
        | (_, some err) => (c, some ("invalid config: " ++ err))
        | (config, none) => (some config, none)

/-- `GetConfig()`: a pointer (`some`) to a fresh zero `Config` when the package
variable is nil, else a pointer to a copy of the struct it points to. The
struct holds only integers, booleans and strings, so the copy shares nothing
with the original. -/
def GetConfig (c : Option Config) : Option Config :=
  match c with
  | none => some NewConfig
  | some cfg =>
    let copyConfig := cfg
    some copyConfig

/-- One call `LoadConfig(path)` together with the outside world it runs in. -/
structure LoadCall where
  fs : FileSystem
  path : String

/-- The package variable `c` after a sequence of `LoadConfig` calls. -/
def runLoads (calls : List LoadCall) (c : Option Config) : Option Config :=
  calls.foldl (fun st call => (LoadConfig call.fs call.path st).1) c

/-- The file at `path` exists, can be read and decodes (into a zero `Config`)
to `cfg`. -/
def ParsesTo (fs : FileSystem) (path : String) (cfg : Config) : Prop :=
  fs.statNotExist path = false ∧
    ∃ data, fs.readFile path = .ok data ∧ fs.unmarshal data NewConfig = .ok cfg

/-- A world in which every path holds an empty document: reading yields `""`
and decoding leaves the target struct as it was. -/
def emptyFileSystem : FileSystem :=
  { statNotExist := fun _ => false
    readFile := fun _ => .ok ""
    unmarshal := fun _ c => .ok c }

/-- A world in which every path decodes to the given struct. -/
def constFileSystem (cfg : Config) : FileSystem :=
  { statNotExist := fun _ => false
    readFile := fun _ => .ok ""
    unmarshal := fun _ _ => .ok cfg }

/-- A world without any file. -/
def noFileSystem : FileSystem :=
  { statNotExist := fun _ => true
    readFile := fun _ => .error "no such file"
    unmarshal := fun _ c => .ok c }

/-- A world in which the file exists and reading it fails. -/
def unreadableFileSystem : FileSystem :=
  { statNotExist := fun _ => false
    readFile := fun _ => .error "permission denied"
    unmarshal := fun _ c => .ok c }

/-- A world in which the file can be read and is not YAML. -/
def garbledFileSystem : FileSystem :=
  { statNotExist := fun _ => false
    readFile := fun _ => .ok ":"
    unmarshal := fun _ _ => .error "yaml: did not find expected key" }

/-- Read as the spec words it (section 4.1): a load fails when the file is
absent, cannot be read or cannot be parsed; otherwise the defaults are applied
to the parsed configuration, the load fails when validation rejects the
result, and on success that result is what it publishes. `none` stands for a
load that fails. -/
def publishedBy (call : LoadCall) : Option Config :=
  if call.fs.statNotExist call.path then none
  else
    match call.fs.readFile call.path with
    | .error _ => none
    | .ok data =>
      match call.fs.unmarshal data NewConfig with
      | .error _ => none
      | .ok cfg =>
        if (ValidateConfig (SetDefault cfg)).2 = none then some (SetDefault cfg) else none

/-- Read as the spec words it: what `Get()` hands out after a sequence of
loads (most recent first) is the configuration published by the most recent
load that succeeded, and the zero configuration if none did. -/
def mostRecentPublished : List LoadCall → Config
  | [] => NewConfig
  | call :: earlier =>
    match publishedBy call with
    | some cfg => cfg
    | none => mostRecentPublished earlier

/-! ## The decoded document -/

/-- The keys a YAML document can carry for `Config`, following the `yaml:"..."`
tags of the structs: every leaf is either absent (`none`) or present with a
value. -/
structure YamlDoc where
  server_port : Option Int
  server_host : Option String
  server_timeout : Option String
  server_dbtype : Option String
  logs_level : Option String
  logs_format : Option String
  logs_console : Option Bool
  logs_file : Option Bool
  logs_dir : Option String
  lumberjack_rotate : Option Bool
  lumberjack_filename : Option String
  lumberjack_maxsize : Option Int
  lumberjack_maxbackups : Option Int
  lumberjack_maxage : Option Int
  lumberjack_compress : Option Bool
  mysql_host : Option String
  mysql_port : Option Int
  mysql_user : Option String
  mysql_password : Option String
  mysql_dbname : Option String
  sqlite_filename : Option String
  tencent_appid : Option String
  tencent_appkey : Option String
  aws_region : Option String
  aws_accesskey : Option String
  aws_secretkey : Option String
  aliyun_region : Option String
  aliyun_accesskey : Option String
  aliyun_secretkey : Option String

/-- The document without any key. -/
def YamlDoc.empty : YamlDoc :=
  { server_port := none, server_host := none, server_timeout := none, server_dbtype := none
    logs_level := none, logs_format := none, logs_console := none, logs_file := none
    logs_dir := none, lumberjack_rotate := none, lumberjack_filename := none
    lumberjack_maxsize := none, lumberjack_maxbackups := none, lumberjack_maxage := none
    lumberjack_compress := none, mysql_host := none, mysql_port := none, mysql_user := none
    mysql_password := none, mysql_dbname := none, sqlite_filename := none
    tencent_appid := none, tencent_appkey := none, aws_region := none, aws_accesskey := none
    aws_secretkey := none, aliyun_region := none, aliyun_accesskey := none
    aliyun_secretkey := none }

/-- What `LoadConfig` hands to `SetDefault`: `yaml.Unmarshal(data, config)` on
the fresh `config := NewConfig()` stores the value of every key that is present
and leaves the field of an absent key at its zero value. -/
def YamlDoc.decode (d : YamlDoc) : Config :=
  { Server := { Port := d.server_port.getD NewConfig.Server.Port
                Host := d.server_host.getD NewConfig.Server.Host
                Timeout := d.server_timeout.getD NewConfig.Server.Timeout
                DBType := d.server_dbtype.getD NewConfig.Server.DBType }
    Logs := { Level := d.logs_level.getD NewConfig.Logs.Level
              Format := d.logs_format.getD NewConfig.Logs.Format
              Console := d.logs_console.getD NewConfig.Logs.Console
              File := d.logs_file.getD NewConfig.Logs.File
              Dir := d.logs_dir.getD NewConfig.Logs.Dir
              Lumberjack :=
                { Rotate := d.lumberjack_rotate.getD NewConfig.Logs.Lumberjack.Rotate
                  Filename := d.lumberjack_filename.getD NewConfig.Logs.Lumberjack.Filename
                  MaxSize := d.lumberjack_maxsize.getD NewConfig.Logs.Lumberjack.MaxSize
                  MaxBackups := d.lumberjack_maxbackups.getD NewConfig.Logs.Lumberjack.MaxBackups
                  MaxAge := d.lumberjack_maxage.getD NewConfig.Logs.Lumberjack.MaxAge
                  Compress := d.lumberjack_compress.getD NewConfig.Logs.Lumberjack.Compress } }
    MySQL := { Host := d.mysql_host.getD NewConfig.MySQL.Host
               Port := d.mysql_port.getD NewConfig.MySQL.Port
               User := d.mysql_user.getD NewConfig.MySQL.User
               Password := d.mysql_password.getD NewConfig.MySQL.Password
               DBName := d.mysql_dbname.getD NewConfig.MySQL.DBName }
    Sqlite := { FileName := d.sqlite_filename.getD NewConfig.Sqlite.FileName }
    Tencent := { AppID := d.tencent_appid.getD NewConfig.Tencent.AppID
                 AppKey := d.tencent_appkey.getD NewConfig.Tencent.AppKey }
    AWS := { Region := d.aws_region.getD NewConfig.AWS.Region
             AccessKey := d.aws_accesskey.getD NewConfig.AWS.AccessKey
             SecretKey := d.aws_secretkey.getD NewConfig.AWS.SecretKey }
    Aliyun := { Region := d.aliyun_region.getD NewConfig.Aliyun.Region
                AccessKey := d.aliyun_accesskey.getD NewConfig.Aliyun.AccessKey
                SecretKey := d.aliyun_secretkey.getD NewConfig.Aliyun.SecretKey } }

/-- A document that switches console output, rotation and compression off,
keeps every rotated file (`maxbackups: 0`, `maxage: 0`) and says nothing else. -/
def quietDoc : YamlDoc :=
  { YamlDoc.empty with
    logs_console := some false
    lumberjack_rotate := some false
    lumberjack_compress := some false
    lumberjack_maxbackups := some 0
    lumberjack_maxage := some 0 }

/-- A document that supplies a value other than the zero value for a field of
each type. -/
def explicitDoc : YamlDoc :=
  { YamlDoc.empty with
    server_port := some 9090
    server_dbtype := some "sqlite"
    logs_level := some "debug"
    logs_console := some true
    lumberjack_maxsize := some 5
    mysql_host := some "db.internal"
    sqlite_filename := some "data/app.db" }

/-! ## `internal/log/log.go`: merging the global fields -/

/-- The Go map type `logrus.Fields` (`map[string]interface{}`) as an
association list; `V` stands for the values (`interface{}`). The order of the
list is the order in which `range` visits the map. -/
abbrev Fields (V : Type) := List (String × V)

/-- The lookup `v, exists := m[k]`: `none` when `exists` is false. -/
def Fields.get? {V : Type} : Fields V → String → Option V
  | [], _ => none
  | (k0, v0) :: m, k => if k0 = k then some v0 else Fields.get? m k

/-- The assignment `m[k] = v`: overwrites the entry of `k` if there is one,
adds an entry otherwise. -/
def Fields.set {V : Type} : Fields V → String → V → Fields V
  | [], k, v => [(k, v)]
  | (k0, v0) :: m, k, v => if k0 = k then (k, v) :: m else (k0, v0) :: Fields.set m k v

/-- The keys of a map. -/
def Fields.keys {V : Type} (m : Fields V) : List String := m.map Prod.fst

/-- A few shapes of the values an `interface{}` can hold: integers, strings
and function values. -/
inductive Value where
  | int (n : Int)
  | str (s : String)
  | func (id : Nat)
deriving DecidableEq

/-- Whether `reflect.TypeOf(v)` is of kind `Func`. -/
def Value.isFunc : Value → Bool
  | .func _ => true
  | _ => false

/-- The field set of a `*logrus.Entry`: its `Data` map. -/
structure Entry (V : Type) where
  Data : Fields V

/-- The library method `(*logrus.Logger).WithFields(fields)`, as far as the
entry's `Data` goes: a fresh entry has no data, and the loop over `fields`
stores every pair except those whose value is a function or a pointer to a
function (`isFunc`), which logrus refuses and reports in the entry's error
note instead. The error note is not part of the model. -/
def logrusWithFields {V : Type} (isFunc : V → Bool) (fields : Fields V) : Entry V :=
  let data : Fields V := []
  let data := fields.foldl
    (fun data kv => if isFunc kv.2 then data else Fields.set data kv.1 kv.2) data
  { Data := data }

/-- Lines 117 to 130 of `WithFields(fields)`: the parameter `fields` at the
moment the logger is called. The first argument is the package variable
`globalFields`; a nil map is `none`. -/
def mergedFields {V : Type} (globalFields : Option (Fields V)) (fields : Option (Fields V)) :
    Fields V :=
  let fields := match fields with
    | none => []
    | some f => f
  match globalFields with
  | none => fields
  | some g =>
    if g.length > 0 then
      g.foldl
        (fun fields kv => if (Fields.get? fields kv.1).isNone then Fields.set fields kv.1 kv.2 else fields)
        fields
    else fields

/-- `WithFields(fields)`: the merge, then `return GetLogger().WithFields(fields)`.
Both `Logger` and the fallback logger of `GetLogger` build the entry the same
way. -/
def WithFields {V : Type} (isFunc : V → Bool) (globalFields : Option (Fields V))
    (fields : Option (Fields V)) : Entry V :=
  logrusWithFields isFunc (mergedFields globalFields fields)

/-- `SetGlobalFields(fields)`: the package variable afterwards. -/
def SetGlobalFields {V : Type} (fields : Option (Fields V)) (_globalFields : Option (Fields V)) :
    Option (Fields V) :=
  fields

/-- `AddGlobalField(key, value)`: the package variable afterwards. -/
def AddGlobalField {V : Type} (key : String) (value : V) (globalFields : Option (Fields V)) :
    Option (Fields V) :=
  let g := match globalFields with
    | none => []
    | some g => g
  some (Fields.set g key value)

/-! ## `internal/db`: the two connection singletons -/

/-- The identity of a `*gorm.DB` value. -/
abbrev Handle := Nat

/-- What `gorm.Open` returns: a handle and no error, or an error together with
the handle value returned alongside it (which may be nil). -/
inductive OpenResult where
  | ok (db : Handle)
  | fail (db : Option Handle) (err : String)
deriving DecidableEq

/-- The effects the initialisers have on the outside world. -/
inductive DbEvent where
  | mkdirAll (dir : String)
  | gormOpen (dialect : String) (dsn : String)
  | setMaxIdleConns (pool : Nat) (n : Nat)
  | setMaxOpenConns (pool : Nat) (n : Nat)
  | setConnMaxLifetime (pool : Nat) (seconds : Nat)
deriving DecidableEq

/-- The kind of an effect: the name of the function called. -/
def DbEvent.tag : DbEvent → String
  | .mkdirAll _ => "os.MkdirAll"
  | .gormOpen _ _ => "gorm.Open"
  | .setMaxIdleConns _ _ => "SetMaxIdleConns"
  | .setMaxOpenConns _ _ => "SetMaxOpenConns"
  | .setConnMaxLifetime _ _ => "SetConnMaxLifetime"

/-- The outside world of the initialisers: the driver and the file system. -/
structure Driver where
  /-- The call `gorm.Open(mysql.Open(dsn), gormConfig)` (dialect `"mysql"`)
  or `gorm.Open(sqlite.Open(file), gormConfig)` (dialect `"sqlite"`). -/
  gormOpen : String → String → OpenResult
  /-- The method `(*gorm.DB).DB()`: the pool behind a handle, or an error. -/
  sqlDB : Handle → Except String Nat
  /-- The function `os.MkdirAll(dir, 0755)`: the error, if any. -/
  mkdirAll : String → Option String
  /-- The function `filepath.Dir`. -/
  dir : String → String

/-- The package variables of `mysql.go`, and the effects performed so far. -/
structure MySQLState where
  db : Option Handle
  once : Bool
  trace : List DbEvent
deriving DecidableEq

/-- The state of `mysql.go` at process start. -/
def MySQLState.init : MySQLState := { db := none, once := false, trace := [] }

/-- `initDB()`. The argument `c` is the package variable of the config
package, read through `GetConfig`. -/
def initDB (drv : Driver) (c : Option Config) (s : MySQLState) : MySQLState × Option String :=
  match GetConfig c with
  | none => (s, some "nil pointer dereference")
  | some cfg =>
    let mysqlConfig := cfg.MySQL
    let dsn := mysqlConfig.User ++ ":" ++ mysqlConfig.Password ++ "@tcp(" ++ mysqlConfig.Host ++ ":"
      ++ toString mysqlConfig.Port ++ ")/" ++ mysqlConfig.DBName
      ++ "?charset=utf8mb4&parseTime=True&loc=Local"
    match drv.gormOpen "mysql" dsn with
    | .fail db err =>
      ({ s with db := db, trace := s.trace ++ [.gormOpen "mysql" dsn] },
        some ("failed to connect to mysql: " ++ err))
    | .ok db =>
      let s := { s with db := some db, trace := s.trace ++ [.gormOpen "mysql" dsn] }
      match drv.sqlDB db with
      | .error err => (s, some ("failed to get database: " ++ err))
      | .ok sqlDB =>
        ({ s with trace := s.trace ++
            [.setMaxIdleConns sqlDB 10, .setMaxOpenConns sqlDB 100, .setConnMaxLifetime sqlDB 3600] },
          none)

/-- `InitMySQL()`: `once.Do` runs `initDB` when the flag is clear, drops its
result and sets the flag. -/
def InitMySQL (drv : Driver) (c : Option Config) (s : MySQLState) : MySQLState :=
  if s.once then s
  else
    let r := initDB drv c s
    { r.1 with once := true }

/-- `GetDB()`. -/
def GetDB (s : MySQLState) : Option Handle :=
  match s.db with
  | none => none
  | some db => some db

/-- The package variables of `sqlite.go`, and the effects performed so far. -/
structure SQLiteState where
  sqliteDB : Option Handle
  sqliteOnce : Bool
  sqliteInitErr : Option String
  sqliteConfig : Option SqliteConfig
  trace : List DbEvent
deriving DecidableEq

/-- The state of `sqlite.go` at process start. -/
def SQLiteState.init : SQLiteState :=
  { sqliteDB := none, sqliteOnce := false, sqliteInitErr := none, sqliteConfig := none, trace := [] }

/-- `initSQLiteDB()`. -/
def initSQLiteDB (drv : Driver) (s : SQLiteState) : SQLiteState × Option String :=
  match s.sqliteConfig with
  | none => (s, some "sqlite config is not set")
  | some cfg =>
    let dbDir := drv.dir cfg.FileName
    let s := { s with trace := s.trace ++ [.mkdirAll dbDir] }
    match drv.mkdirAll dbDir with
    | some err => (s, some ("failed to create database directory: " ++ err))
    | none =>
      match drv.gormOpen "sqlite" cfg.FileName with
      | .fail db err =>
        ({ s with sqliteDB := db, trace := s.trace ++ [.gormOpen "sqlite" cfg.FileName] },
          some ("failed to connect to sqlite: " ++ err))
      | .ok db =>
        let s := { s with sqliteDB := some db, trace := s.trace ++ [.gormOpen "sqlite" cfg.FileName] }
        match drv.sqlDB db with
        | .error err => (s, some ("failed to get database: " ++ err))
        | .ok sqlDB =>
          ({ s with trace := s.trace ++
              [.setMaxIdleConns sqlDB 10, .setMaxOpenConns sqlDB 100, .setConnMaxLifetime sqlDB 3600] },
            none)

/-- `InitSQLite(config)`: stores the argument, lets `sqliteOnce.Do` run
`initSQLiteDB` and record its result when the flag is clear, and returns the
recorded error. -/
def InitSQLite (drv : Driver) (config : Option SqliteConfig) (s : SQLiteState) :
    SQLiteState × Option String :=
  let s := { s with sqliteConfig := config }
  let s :=
    if s.sqliteOnce then s
    else
      let r := initSQLiteDB drv s
      { r.1 with sqliteInitErr := r.2, sqliteOnce := true }
  (s, s.sqliteInitErr)

/-- `GetSQLiteDB()`: the handle and the error. -/
def GetSQLiteDB (s : SQLiteState) : Option Handle × Option String :=
  match s.sqliteDB with
  | none =>
    match s.sqliteInitErr with
    | some err => (none, some err)
    | none => (none, some "sqlite database not initialized")
  | some db => (some db, none)

/-- One call `InitMySQL()`: the world it runs in and the configuration
variable it reads. -/
structure MySQLCall where
  drv : Driver
  c : Option Config

/-- One call `InitSQLite(config)` and the world it runs in. -/
structure SQLiteCall where
  drv : Driver
  config : Option SqliteConfig

/-- The state after a sequence of `InitMySQL` calls. -/
def runInitMySQL (calls : List MySQLCall) (s : MySQLState) : MySQLState :=
  calls.foldl (fun s call => InitMySQL call.drv call.c s) s

/-- The state after a sequence of `InitSQLite` calls, and the errors the calls
returned, in order. -/
def runInitSQLite : List SQLiteCall → SQLiteState → SQLiteState × List (Option String)
  | [], s => (s, [])
  | call :: calls, s =>
    let r := InitSQLite call.drv call.config s
    let rest := runInitSQLite calls r.1
    (rest.1, r.2 :: rest.2)

/-- A world in which every open succeeds with handle `1` and every pool
lookup succeeds with pool `1`. -/
def healthyDriver : Driver :=
  { gormOpen := fun _ _ => .ok 1
    sqlDB := fun _ => .ok 1
    mkdirAll := fun _ => none
    dir := fun _ => "." }

/-- A world in which every open succeeds with handle `1` and `DB()` on the
handle returns an error. -/
def poolFailDriver : Driver :=
  { gormOpen := fun _ _ => .ok 1
    sqlDB := fun _ => .error "invalid db"
    mkdirAll := fun _ => none
    dir := fun _ => "." }

/-- A world in which every open returns an error together with a non-nil
handle. -/
def openFailDriver : Driver :=
  { gormOpen := fun _ _ => .fail (some 1) "connection refused"
    sqlDB := fun _ => .ok 1
    mkdirAll := fun _ => none
    dir := fun _ => "." }

/-- A world in which every open succeeds with handle `2`. -/
def otherDriver : Driver :=
  { gormOpen := fun _ _ => .ok 2
    sqlDB := fun _ => .ok 2
    mkdirAll := fun _ => none
    dir := fun _ => "." }

/-! ## Facts about the defaults, field by field -/

/-- `ValidateConfig` returns nil exactly when all seven checks pass. -/
theorem validate_err_none_iff (c : Config) :
    (ValidateConfig c).2 = none ↔
      (0 < c.Server.Port ∧ c.Server.Port ≤ 65535) ∧ c.Server.Host ≠ "" ∧
      c.MySQL.Host ≠ "" ∧ c.MySQL.User ≠ "" ∧ c.MySQL.Password ≠ "" ∧
      c.MySQL.DBName ≠ "" ∧ c.MySQL.Port ≠ 0 := by
  unfold ValidateConfig
  split_ifs with h1 h2 h3 h4 h5 h6 h7 <;> simp_all <;> omega

/-- `LogsDefault` in closed form. -/
theorem LogsDefault_eq (c : Config) :
    LogsDefault c = { c with Logs :=
      { Level := if c.Logs.Level = "" then "info" else c.Logs.Level
        Format := if c.Logs.Format = "" then "json" else c.Logs.Format
        Console := true
        File := c.Logs.File
        Dir := if c.Logs.Dir = "" then "logs/" else c.Logs.Dir
        Lumberjack :=
          { Rotate := true
            Filename := if c.Logs.Lumberjack.Filename = "" then "openCMD.log" else c.Logs.Lumberjack.Filename
            MaxSize := if c.Logs.Lumberjack.MaxSize = 0 then 100 else c.Logs.Lumberjack.MaxSize
            MaxBackups := if c.Logs.Lumberjack.MaxBackups = 0 then 7 else c.Logs.Lumberjack.MaxBackups
            MaxAge := if c.Logs.Lumberjack.MaxAge = 0 then 7 else c.Logs.Lumberjack.MaxAge
            Compress := true } } } := by
  obtain ⟨s, ⟨lv, fm, co, fi, di, ⟨ro, fn, ms, mb, ma, cp⟩⟩, m, q, t, a, y⟩ := c
  simp only [LogsDefault]
  by_cases h1 : lv = "" <;> by_cases h2 : di = "" <;> by_cases h3 : fn = "" <;> by_cases h4 : fm = "" <;>
    simp [h1, h2, h3, h4] <;> cases co <;> cases ro <;> cases cp <;> simp <;>
    by_cases h5 : ms = 0 <;> by_cases h6 : mb = 0 <;> by_cases h7 : ma = 0 <;> simp [h5, h6, h7]

/-- `ServerDefault` in closed form. -/
theorem ServerDefault_eq (c : Config) :
    ServerDefault c = { c with Server :=
      { Port := if c.Server.Port = 0 then 8080 else c.Server.Port
        Host := if c.Server.Host = "" then "0.0.0.0" else c.Server.Host
        Timeout := if c.Server.Timeout = "" then "5s" else c.Server.Timeout
        DBType := if c.Server.DBType = "sqlite" then "sqlite" else "mysql" } } := by
  obtain ⟨⟨p, h, t, d⟩, l, m, q, te, a, y⟩ := c
  simp only [ServerDefault]
  by_cases h1 : p = 0 <;> by_cases h2 : h = "" <;> by_cases h3 : t = "" <;>
    by_cases h4 : d = "" <;> by_cases h5 : d = "sqlite" <;> by_cases h6 : d = "mysql" <;>
    simp_all

/-- `mysqlDefault` in closed form. -/
theorem mysqlDefault_eq (c : Config) :
    mysqlDefault c =
      if c.Server.DBType = "mysql" then
        { c with MySQL :=
          { Host := if c.MySQL.Host = "" then "localhost" else c.MySQL.Host
            Port := if c.MySQL.Port = 0 then 3306 else c.MySQL.Port
            User := if c.MySQL.User = "" then "root" else c.MySQL.User
            Password := if c.MySQL.Password = "" then "123456" else c.MySQL.Password
            DBName := if c.MySQL.DBName = "" then "openCMD" else c.MySQL.DBName } }
      else if c.Server.DBType = "sqlite" then
        { c with Sqlite := { FileName := if c.Sqlite.FileName = "" then "openCMD.db" else c.Sqlite.FileName } }
      else c := by
  obtain ⟨⟨p, h, t, d⟩, l, ⟨mh, mp, mu, mw, mn⟩, ⟨q⟩, te, a, y⟩ := c
  simp only [mysqlDefault]
  by_cases h0 : d = "mysql"
  · by_cases h1 : mh = "" <;> by_cases h2 : mp = 0 <;> by_cases h3 : mu = "" <;>
      by_cases h4 : mw = "" <;> by_cases h5 : mn = "" <;> simp [h0, h1, h2, h3, h4, h5]
  · by_cases h1 : d = "sqlite" <;> by_cases h2 : q = "" <;> simp [h0, h1, h2]

/-- The server section after `SetDefault`. -/
theorem SetDefault_Server (c : Config) :
    (SetDefault c).Server =
      { Port := if c.Server.Port = 0 then 8080 else c.Server.Port
        Host := if c.Server.Host = "" then "0.0.0.0" else c.Server.Host
        Timeout := if c.Server.Timeout = "" then "5s" else c.Server.Timeout
        DBType := if c.Server.DBType = "sqlite" then "sqlite" else "mysql" } := by
  rw [SetDefault, LogsDefault_eq, mysqlDefault_eq, ServerDefault_eq]
  by_cases h : c.Server.DBType = "sqlite" <;> simp [h]

/-- The logging section after `SetDefault`. -/
theorem SetDefault_Logs (c : Config) :
    (SetDefault c).Logs =
      { Level := if c.Logs.Level = "" then "info" else c.Logs.Level
        Format := if c.Logs.Format = "" then "json" else c.Logs.Format
        Console := true
        File := c.Logs.File
        Dir := if c.Logs.Dir = "" then "logs/" else c.Logs.Dir
        Lumberjack :=
          { Rotate := true
            Filename := if c.Logs.Lumberjack.Filename = "" then "openCMD.log" else c.Logs.Lumberjack.Filename
            MaxSize := if c.Logs.Lumberjack.MaxSize = 0 then 100 else c.Logs.Lumberjack.MaxSize
            MaxBackups := if c.Logs.Lumberjack.MaxBackups = 0 then 7 else c.Logs.Lumberjack.MaxBackups
            MaxAge := if c.Logs.Lumberjack.MaxAge = 0 then 7 else c.Logs.Lumberjack.MaxAge
            Compress := true } } := by
  rw [SetDefault, LogsDefault_eq, mysqlDefault_eq, ServerDefault_eq]
  by_cases h : c.Server.DBType = "sqlite" <;> simp [h]

/-- The MySQL section after `SetDefault`: untouched for `"sqlite"`, filled in
otherwise (every other database type has become `"mysql"` by then). -/
theorem SetDefault_MySQL (c : Config) :
    (SetDefault c).MySQL =
      if c.Server.DBType = "sqlite" then c.MySQL else
        { Host := if c.MySQL.Host = "" then "localhost" else c.MySQL.Host
          Port := if c.MySQL.Port = 0 then 3306 else c.MySQL.Port
          User := if c.MySQL.User = "" then "root" else c.MySQL.User
          Password := if c.MySQL.Password = "" then "123456" else c.MySQL.Password
          DBName := if c.MySQL.DBName = "" then "openCMD" else c.MySQL.DBName } := by
  rw [SetDefault, LogsDefault_eq, mysqlDefault_eq, ServerDefault_eq]
  by_cases h : c.Server.DBType = "sqlite" <;> simp [h]

/-- The SQLite section after `SetDefault`: filled in only for `"sqlite"`. -/
theorem SetDefault_Sqlite (c : Config) :
    (SetDefault c).Sqlite =
      if c.Server.DBType = "sqlite" then
        { FileName := if c.Sqlite.FileName = "" then "openCMD.db" else c.Sqlite.FileName }
      else c.Sqlite := by
  rw [SetDefault, LogsDefault_eq, mysqlDefault_eq, ServerDefault_eq]
  by_cases h : c.Server.DBType = "sqlite" <;> simp [h]

/-- `ValidateConfig` writes nothing through its receiver. -/
theorem ValidateConfig_fst (c : Config) : (ValidateConfig c).1 = c := by
  unfold ValidateConfig
  split_ifs <;> rfl

/-- On a file that parses, `LoadConfig` is decided by validation of the
defaulted struct. -/
theorem LoadConfig_of_parsesTo {fs : FileSystem} {path : String} {cfg : Config}
    (h : ParsesTo fs path cfg) (c : Option Config) :
    LoadConfig fs path c =
      match (ValidateConfig (SetDefault cfg)).2 with
      | some err => (c, some ("invalid config: " ++ err))
      | none => (some (SetDefault cfg), none) := by
  obtain ⟨h1, data, h2, h3⟩ := h
  have hv : ∀ x, (ValidateConfig (SetDefault x)).1 = SetDefault x :=
    fun x => ValidateConfig_fst _
  unfold LoadConfig
  generalize SetDefault = S at hv ⊢
  replace hv := hv cfg
  simp only [h1, h2, h3]
  generalize S cfg = d at hv ⊢
  rcases hr : ValidateConfig d with ⟨c1, _ | e⟩
  · rw [hr] at hv
    simp only at hv
    subst hv
    simp [hr]
  · simp [hr]

/-- Whatever the world, `LoadConfig` either fails and leaves the package
variable alone, or succeeds and publishes a struct that passes validation; the
error and the published struct do not depend on the variable before. -/
theorem LoadConfig_cases (fs : FileSystem) (path : String) (c : Option Config) :
    ((LoadConfig fs path c).2 ≠ none ∧ (LoadConfig fs path c).1 = c ∧
      (LoadConfig fs path none).2 = (LoadConfig fs path c).2 ∧
      (LoadConfig fs path none).1 = none) ∨
    (∃ cfg, LoadConfig fs path c = (some cfg, none) ∧
      LoadConfig fs path none = (some cfg, none) ∧ (ValidateConfig cfg).2 = none) := by
  have hv : ∀ x, (ValidateConfig (SetDefault x)).1 = SetDefault x :=
    fun x => ValidateConfig_fst _
  unfold LoadConfig
  generalize SetDefault = S at hv ⊢
  by_cases h1 : fs.statNotExist path
  · simp [h1]
  · rcases h2 : fs.readFile path with e | data
    · simp [h1]
    · rcases h3 : fs.unmarshal data NewConfig with e | cfg
      · simp [h1, h3]
      · replace hv := hv cfg
        simp only [h1, h3]
        generalize S cfg = d at hv ⊢
        rcases hr : ValidateConfig d with ⟨c1, _ | e⟩
        · rw [hr] at hv
          simp only at hv
          subst hv
          simp [h1, h3, hr]
        · simp [h1, h3, hr]

/-- `LoadConfig` against the spec reading of a load: where the spec says the
load fails, `LoadConfig` returns an error and leaves the package variable
alone; where it says the load publishes `cfg`, `LoadConfig` returns nil and the
variable points to `cfg`, which passes validation. -/
theorem LoadConfig_publishedBy (call : LoadCall) (c : Option Config) :
    (publishedBy call = none ∧ (LoadConfig call.fs call.path c).2 ≠ none ∧
      (LoadConfig call.fs call.path c).1 = c) ∨
    (∃ cfg, publishedBy call = some cfg ∧ LoadConfig call.fs call.path c = (some cfg, none) ∧
      (ValidateConfig cfg).2 = none) := by
  have hv : ∀ x, (ValidateConfig (SetDefault x)).1 = SetDefault x :=
    fun x => ValidateConfig_fst _
  unfold LoadConfig publishedBy
  generalize SetDefault = S at hv ⊢
  by_cases h1 : call.fs.statNotExist call.path
  · simp [h1]
  · rcases h2 : call.fs.readFile call.path with e | data
    · simp [h1]
    · rcases h3 : call.fs.unmarshal data NewConfig with e | cfg
      · simp [h1, h3]
      · replace hv := hv cfg
        simp only [h1, h3]
        generalize S cfg = d at hv ⊢
        rcases hr : ValidateConfig d with ⟨c1, _ | e⟩
        · rw [hr] at hv
          simp only at hv
          subst hv
          simp [h1, h3, hr]
        · simp [h1, h3, hr]

/-- The invariant behind the snapshot: after any sequence of loads from the
initial nil variable, the variable is nil and no load has succeeded, or it
holds the struct of the most recent successful load, which passes validation. -/
theorem runLoads_invariant (calls : List LoadCall) :
    (runLoads calls none = none ∧ mostRecentPublished calls.reverse = NewConfig) ∨
    (∃ cfg, runLoads calls none = some cfg ∧ mostRecentPublished calls.reverse = cfg ∧
      (ValidateConfig cfg).2 = none) := by
  induction calls using List.reverseRecOn with
  | nil => exact Or.inl ⟨rfl, rfl⟩
  | append_singleton calls call ih =>
    have hstep : runLoads (calls ++ [call]) none =
        (LoadConfig call.fs call.path (runLoads calls none)).1 := by
      simp [runLoads, List.foldl_append]
    rw [hstep, List.reverse_append, List.reverse_singleton, List.singleton_append]
    rcases LoadConfig_publishedBy call (runLoads calls none) with
      ⟨h1, -, h3⟩ | ⟨cfg, h1, h2, h3⟩
    · have hm : mostRecentPublished (call :: calls.reverse) = mostRecentPublished calls.reverse := by
        simp [mostRecentPublished, h1]
      rw [h3, hm]
      exact ih
    · right
      refine ⟨cfg, by rw [h2], ?_, h3⟩
      simp [mostRecentPublished, h1]

/-- `C2`. Applied to the zero configuration `SetDefault` yields exactly the
documented defaults (MySQL block included, SQLite file name and the fields
without a default still zero); and for every input, each defaulted field that
holds its zero value before holds its default after, the MySQL fields when the
resulting database type is `"mysql"`, the SQLite file name when it is
`"sqlite"`. -/
theorem SetDefault_fills_defaults :
    SetDefault NewConfig =
      { Server := { Port := 8080, Host := "0.0.0.0", Timeout := "5s", DBType := "mysql" }
        Logs := { Level := "info", Format := "json", Console := true, File := false, Dir := "logs/",
                  Lumberjack := { Rotate := true, Filename := "openCMD.log", MaxSize := 100,
                                  MaxBackups := 7, MaxAge := 7, Compress := true } }
        MySQL := { Host := "localhost", Port := 3306, User := "root", Password := "123456",
                   DBName := "openCMD" }
        Sqlite := { FileName := "" }
        Tencent := { AppID := "", AppKey := "" }
        AWS := { Region := "", AccessKey := "", SecretKey := "" }
        Aliyun := { Region := "", AccessKey := "", SecretKey := "" } } ∧
    ∀ c : Config,
      (c.Server.Port = 0 → (SetDefault c).Server.Port = 8080) ∧
      (c.Server.Host = "" → (SetDefault c).Server.Host = "0.0.0.0") ∧
      (c.Server.Timeout = "" → (SetDefault c).Server.Timeout = "5s") ∧
      (c.Server.DBType = "" → (SetDefault c).Server.DBType = "mysql") ∧
      (c.Logs.Level = "" → (SetDefault c).Logs.Level = "info") ∧
      (c.Logs.Dir = "" → (SetDefault c).Logs.Dir = "logs/") ∧
      (c.Logs.Lumberjack.Filename = "" → (SetDefault c).Logs.Lumberjack.Filename = "openCMD.log") ∧
      (c.Logs.Format = "" → (SetDefault c).Logs.Format = "json") ∧
      (c.Logs.Console = false → (SetDefault c).Logs.Console = true) ∧
      (c.Logs.Lumberjack.Rotate = false → (SetDefault c).Logs.Lumberjack.Rotate = true) ∧
      (c.Logs.Lumberjack.Compress = false → (SetDefault c).Logs.Lumberjack.Compress = true) ∧
      (c.Logs.Lumberjack.MaxSize = 0 → (SetDefault c).Logs.Lumberjack.MaxSize = 100) ∧
      (c.Logs.Lumberjack.MaxBackups = 0 → (SetDefault c).Logs.Lumberjack.MaxBackups = 7) ∧
      (c.Logs.Lumberjack.MaxAge = 0 → (SetDefault c).Logs.Lumberjack.MaxAge = 7) ∧
      ((SetDefault c).Server.DBType = "mysql" →
        (c.MySQL.Host = "" → (SetDefault c).MySQL.Host = "localhost") ∧
        (c.MySQL.Port = 0 → (SetDefault c).MySQL.Port = 3306) ∧
        (c.MySQL.User = "" → (SetDefault c).MySQL.User = "root") ∧
        (c.MySQL.Password = "" → (SetDefault c).MySQL.Password = "123456") ∧
        (c.MySQL.DBName = "" → (SetDefault c).MySQL.DBName = "openCMD")) ∧
      ((SetDefault c).Server.DBType = "sqlite" →
        c.Sqlite.FileName = "" → (SetDefault c).Sqlite.FileName = "openCMD.db") := by
  refine ⟨by rfl, fun c => ?_⟩
  rw [SetDefault_Server, SetDefault_Logs, SetDefault_MySQL, SetDefault_Sqlite]
  by_cases h : c.Server.DBType = "sqlite"
  · simp +contextual [h]
  · simp +contextual [h]

/-- The general half of `SetDefault_fills_defaults` on a configuration that
sets only the server port and selects SQLite. -/
theorem SetDefault_fills_defaults_witness :
    (SetDefault { NewConfig with Server := { NewConfig.Server with Port := 9090, DBType := "sqlite" } }).Sqlite.FileName
      = "openCMD.db" :=
  (SetDefault_fills_defaults.2
    { NewConfig with Server := { NewConfig.Server with Port := 9090, DBType := "sqlite" } }).2.2.2.2.2.2.2.2.2.2.2.2.2.2.2
    (by rfl) (by rfl)

/-- `C3`, counterexample. The zero configuration has server port `0` (so a
port `<= 0`) and an empty server host, yet loading a file that parses to it
returns no error and publishes the defaulted configuration, with port `8080`
and host `"0.0.0.0"`. -/
theorem LoadConfig_accepts_zero_port_and_empty_host :
    NewConfig.Server.Port ≤ 0 ∧ NewConfig.Server.Host = "" ∧
    ParsesTo emptyFileSystem "config.yaml" NewConfig ∧
    (LoadConfig emptyFileSystem "config.yaml" none).2 = none ∧
    ((LoadConfig emptyFileSystem "config.yaml" none).1.map fun cfg => (cfg.Server.Port, cfg.Server.Host))
      = some (8080, "0.0.0.0") := by
  refine ⟨by decide, rfl, ⟨rfl, "", rfl, rfl⟩, by rfl, by rfl⟩

/-- `C3`, amended. Loading rejects every parsed configuration whose server port
is negative or greater than 65535: `LoadConfig` returns an error and the
published variable is what it was. A port equal to `0` and an empty host are
replaced by `8080` and `"0.0.0.0"` before validation runs. -/
theorem LoadConfig_rejects_port_out_of_range (fs : FileSystem) (path : String)
    (st : Option Config) (cfg : Config) (hp : ParsesTo fs path cfg)
    (h : cfg.Server.Port < 0 ∨ cfg.Server.Port > 65535) :
    ((LoadConfig fs path st).2 ≠ none ∧ (LoadConfig fs path st).1 = st) ∧
    (∀ cfg0 : Config, cfg0.Server.Port = 0 → (SetDefault cfg0).Server.Port = 8080) ∧
    (∀ cfg0 : Config, cfg0.Server.Host = "" → (SetDefault cfg0).Server.Host = "0.0.0.0") := by
  refine ⟨?_, fun cfg0 h0 => by simp [SetDefault_Server, h0],
    fun cfg0 h0 => by simp [SetDefault_Server, h0]⟩
  have hv : (ValidateConfig (SetDefault cfg)).2 ≠ none := by
    rw [Ne, validate_err_none_iff, SetDefault_Server]
    by_cases h0 : cfg.Server.Port = 0
    · omega
    · simp only [h0, if_false]
      omega
  rw [LoadConfig_of_parsesTo hp]
  rcases hr : (ValidateConfig (SetDefault cfg)).2 with _ | e
  · exact absurd hr hv
  · simp

/-- A file that decodes to the zero configuration with port `70000` is
rejected, and a configuration published before stays published. -/
theorem LoadConfig_rejects_port_out_of_range_witness :
    (LoadConfig (constFileSystem { NewConfig with Server := { NewConfig.Server with Port := 70000 } })
        "config.yaml" (some (SetDefault NewConfig))).2 ≠ none ∧
    (LoadConfig (constFileSystem { NewConfig with Server := { NewConfig.Server with Port := 70000 } })
        "config.yaml" (some (SetDefault NewConfig))).1 = some (SetDefault NewConfig) :=
  (LoadConfig_rejects_port_out_of_range
    (constFileSystem { NewConfig with Server := { NewConfig.Server with Port := 70000 } })
    "config.yaml" (some (SetDefault NewConfig))
    { NewConfig with Server := { NewConfig.Server with Port := 70000 } }
    ⟨rfl, "", rfl, rfl⟩ (Or.inr (by decide))).1

/-- `C4`. For a parsed configuration whose database type is `"sqlite"` and in
which one of MySQL host, port, user, password, database name is empty or zero,
`SetDefault` leaves the MySQL section as it is, `ValidateConfig` on the result
returns an error, and `LoadConfig` on any file that parses to it returns an
error and publishes nothing. -/
theorem sqlite_needs_mysql_section (cfg : Config) (hs : cfg.Server.DBType = "sqlite")
    (hm : cfg.MySQL.Host = "" ∨ cfg.MySQL.Port = 0 ∨ cfg.MySQL.User = "" ∨
      cfg.MySQL.Password = "" ∨ cfg.MySQL.DBName = "") :
    (SetDefault cfg).MySQL = cfg.MySQL ∧
    (ValidateConfig (SetDefault cfg)).2 ≠ none ∧
    ∀ (fs : FileSystem) (path : String) (st : Option Config), ParsesTo fs path cfg →
      (LoadConfig fs path st).2 ≠ none ∧ (LoadConfig fs path st).1 = st := by
  have hk : (SetDefault cfg).MySQL = cfg.MySQL := by simp [SetDefault_MySQL, hs]
  have hv : (ValidateConfig (SetDefault cfg)).2 ≠ none := by
    rw [Ne, validate_err_none_iff, hk]
    rintro ⟨-, -, h1, h2, h3, h4, h5⟩
    rcases hm with h | h | h | h | h
    · exact h1 h
    · exact h5 h
    · exact h2 h
    · exact h3 h
    · exact h4 h
  refine ⟨hk, hv, fun fs path st hp => ?_⟩
  rw [LoadConfig_of_parsesTo hp]
  rcases hr : (ValidateConfig (SetDefault cfg)).2 with _ | e
  · exact absurd hr hv
  · simp

/-- A file holding only `server.dbtype: sqlite` and a SQLite file name cannot
be loaded: validation stops at the empty MySQL host. -/
theorem sqlite_needs_mysql_section_witness :
    (ValidateConfig (SetDefault { NewConfig with
        Server := { NewConfig.Server with DBType := "sqlite" }
        Sqlite := { FileName := "data/app.db" } })).2 ≠ none :=
  (sqlite_needs_mysql_section
    { NewConfig with
        Server := { NewConfig.Server with DBType := "sqlite" }
        Sqlite := { FileName := "data/app.db" } }
    rfl (Or.inl rfl)).2.1

/-- `C7`. `GetConfig` never returns nil; after any sequence of `LoadConfig`
calls started with nothing published it returns (a copy equal to) the
configuration published by the most recent successful call, the zero `Config`
if none succeeded; a call that returns an error leaves the published variable
unchanged, and a call on a missing file, on an unreadable file, on a file that
does not parse, or on a file whose defaulted content fails validation does
return an error (with the text of that cause) and leaves it unchanged; a call
on a file whose defaulted content passes validation returns nil and publishes
that content; a published configuration passes `ValidateConfig`. -/
theorem GetConfig_snapshot (calls : List LoadCall) :
    (∀ st : Option Config, GetConfig st ≠ none) ∧
    GetConfig (runLoads calls none) = some (mostRecentPublished calls.reverse) ∧
    (∀ (fs : FileSystem) (path : String) (st : Option Config),
      (LoadConfig fs path st).2 ≠ none → (LoadConfig fs path st).1 = st) ∧
    (∀ cfg : Config, runLoads calls none = some cfg → (ValidateConfig cfg).2 = none) ∧
    (∀ (fs : FileSystem) (path : String) (st : Option Config),
      fs.statNotExist path = true →
        LoadConfig fs path st = (st, some ("config file not found: " ++ path))) ∧
    (∀ (fs : FileSystem) (path : String) (st : Option Config) (err : String),
      fs.statNotExist path = false → fs.readFile path = .error err →
        LoadConfig fs path st = (st, some ("failed to read config file: " ++ err))) ∧
    (∀ (fs : FileSystem) (path : String) (st : Option Config) (data err : String),
      fs.statNotExist path = false → fs.readFile path = .ok data →
      fs.unmarshal data NewConfig = .error err →
        LoadConfig fs path st = (st, some ("failed to parse config file: " ++ err))) ∧
    (∀ (fs : FileSystem) (path : String) (st : Option Config) (cfg : Config) (err : String),
      ParsesTo fs path cfg → (ValidateConfig (SetDefault cfg)).2 = some err →
        LoadConfig fs path st = (st, some ("invalid config: " ++ err))) ∧
    (∀ (fs : FileSystem) (path : String) (st : Option Config) (cfg : Config),
      ParsesTo fs path cfg → (ValidateConfig (SetDefault cfg)).2 = none →
        LoadConfig fs path st = (some (SetDefault cfg), none)) := by
  refine ⟨fun st => by cases st <;> simp [GetConfig], ?_, fun fs path st he => ?_,
    fun cfg hc => ?_, fun fs path st h1 => ?_, fun fs path st err h1 h2 => ?_,
    fun fs path st data err h1 h2 h3 => ?_, fun fs path st cfg err hp hv => ?_,
    fun fs path st cfg hp hv => ?_⟩
  · rcases runLoads_invariant calls with ⟨h1, h2⟩ | ⟨cfg, h1, h2, -⟩
    · rw [h1, h2]; rfl
    · rw [h1, h2]; rfl
  · rcases LoadConfig_cases fs path st with ⟨-, h2, -, -⟩ | ⟨cfg, h1, -, -⟩
    · exact h2
    · rw [h1] at he
      exact absurd rfl he
  · rcases runLoads_invariant calls with ⟨h1, -⟩ | ⟨cfg0, h1, -, h3⟩
    · rw [h1] at hc
      exact absurd hc (by simp)
    · rw [h1] at hc
      cases hc
      exact h3
  · unfold LoadConfig
    simp [h1]
  · unfold LoadConfig
    simp [h1, h2]
  · unfold LoadConfig
    generalize SetDefault = S
    simp [h1, h2, h3]
  · rw [LoadConfig_of_parsesTo hp, hv]
  · rw [LoadConfig_of_parsesTo hp, hv]

/-- A successful load, then a load of a missing file, of an unreadable file
and of a file that does not parse: each of the three returns its error, and
the snapshot is still the one the first load published; with no load at all it
is the zero `Config`. -/
theorem GetConfig_snapshot_witness :
    GetConfig (runLoads [⟨emptyFileSystem, "a.yaml"⟩, ⟨noFileSystem, "b.yaml"⟩,
        ⟨unreadableFileSystem, "c.yaml"⟩, ⟨garbledFileSystem, "d.yaml"⟩] none)
      = some (SetDefault NewConfig) ∧
    GetConfig (runLoads [] none) = some NewConfig ∧
    LoadConfig noFileSystem "b.yaml" (some (SetDefault NewConfig))
      = (some (SetDefault NewConfig), some "config file not found: b.yaml") ∧
    LoadConfig unreadableFileSystem "c.yaml" (some (SetDefault NewConfig))
      = (some (SetDefault NewConfig), some "failed to read config file: permission denied") ∧
    LoadConfig garbledFileSystem "d.yaml" (some (SetDefault NewConfig))
      = (some (SetDefault NewConfig),
          some "failed to parse config file: yaml: did not find expected key") ∧
    LoadConfig emptyFileSystem "a.yaml" none = (some (SetDefault NewConfig), none) := by
  refine ⟨?_, (GetConfig_snapshot []).2.1,
    (GetConfig_snapshot []).2.2.2.2.1 noFileSystem "b.yaml" _ rfl,
    (GetConfig_snapshot []).2.2.2.2.2.1 unreadableFileSystem "c.yaml" _ _ rfl rfl,
    (GetConfig_snapshot []).2.2.2.2.2.2.1 garbledFileSystem "d.yaml" _ ":" _ rfl rfl rfl,
    (GetConfig_snapshot []).2.2.2.2.2.2.2.2 emptyFileSystem "a.yaml" none NewConfig
      ⟨rfl, "", rfl, rfl⟩ (by rfl)⟩
  rw [(GetConfig_snapshot [⟨emptyFileSystem, "a.yaml"⟩, ⟨noFileSystem, "b.yaml"⟩,
    ⟨unreadableFileSystem, "c.yaml"⟩, ⟨garbledFileSystem, "d.yaml"⟩]).2.1]
  rfl

/-- `C5`, counterexample. A document supplies `console: false`,
`rotate: false`, `compress: false`, `maxbackups: 0` and `maxage: 0`
explicitly; after `SetDefault` the five fields hold `true`, `true`, `true`, `7`
and `7`, the defaults, not the supplied values. -/
theorem SetDefault_overrides_explicit_zero_values :
    (quietDoc.logs_console = some false ∧ (SetDefault quietDoc.decode).Logs.Console = true) ∧
    (quietDoc.lumberjack_rotate = some false ∧
      (SetDefault quietDoc.decode).Logs.Lumberjack.Rotate = true) ∧
    (quietDoc.lumberjack_compress = some false ∧
      (SetDefault quietDoc.decode).Logs.Lumberjack.Compress = true) ∧
    (quietDoc.lumberjack_maxbackups = some 0 ∧
      (SetDefault quietDoc.decode).Logs.Lumberjack.MaxBackups = 7) ∧
    (quietDoc.lumberjack_maxage = some 0 ∧
      (SetDefault quietDoc.decode).Logs.Lumberjack.MaxAge = 7) := by
  refine ⟨⟨rfl, by rfl⟩, ⟨rfl, by rfl⟩, ⟨rfl, by rfl⟩, ⟨rfl, by rfl⟩, ⟨rfl, by rfl⟩⟩

/-- `C5`, amended. For every document and every defaulted field, a supplied
value other than the zero value of the field's type (a non-zero number, a
non-empty string, `true`) is the field's value after `SetDefault`; a supplied
database type `"mysql"` or `"sqlite"` is kept; and a numeric or string field
that is absent, or supplied as `0` or `""`, holds its default afterwards (the
MySQL fields when the resulting database type is `"mysql"`, the SQLite file
name when it is `"sqlite"`), as does a boolean field that is absent. -/
theorem SetDefault_keeps_nonzero_values (d : YamlDoc) :
    ((∀ v, d.server_port = some v → v ≠ 0 → (SetDefault d.decode).Server.Port = v) ∧
     (∀ v, d.server_host = some v → v ≠ "" → (SetDefault d.decode).Server.Host = v) ∧
     (∀ v, d.server_timeout = some v → v ≠ "" → (SetDefault d.decode).Server.Timeout = v) ∧
     (∀ v, d.server_dbtype = some v → v = "mysql" ∨ v = "sqlite" →
        (SetDefault d.decode).Server.DBType = v) ∧
     (∀ v, d.logs_level = some v → v ≠ "" → (SetDefault d.decode).Logs.Level = v) ∧
     (∀ v, d.logs_dir = some v → v ≠ "" → (SetDefault d.decode).Logs.Dir = v) ∧
     (∀ v, d.lumberjack_filename = some v → v ≠ "" →
        (SetDefault d.decode).Logs.Lumberjack.Filename = v) ∧
     (∀ v, d.logs_format = some v → v ≠ "" → (SetDefault d.decode).Logs.Format = v) ∧
     (∀ v, d.logs_console = some v → v ≠ false → (SetDefault d.decode).Logs.Console = v) ∧
     (∀ v, d.lumberjack_rotate = some v → v ≠ false →
        (SetDefault d.decode).Logs.Lumberjack.Rotate = v) ∧
     (∀ v, d.lumberjack_compress = some v → v ≠ false →
        (SetDefault d.decode).Logs.Lumberjack.Compress = v) ∧
     (∀ v, d.lumberjack_maxsize = some v → v ≠ 0 →
        (SetDefault d.decode).Logs.Lumberjack.MaxSize = v) ∧
     (∀ v, d.lumberjack_maxbackups = some v → v ≠ 0 →
        (SetDefault d.decode).Logs.Lumberjack.MaxBackups = v) ∧
     (∀ v, d.lumberjack_maxage = some v → v ≠ 0 →
        (SetDefault d.decode).Logs.Lumberjack.MaxAge = v) ∧
     (∀ v, d.mysql_host = some v → v ≠ "" → (SetDefault d.decode).MySQL.Host = v) ∧
     (∀ v, d.mysql_port = some v → v ≠ 0 → (SetDefault d.decode).MySQL.Port = v) ∧
     (∀ v, d.mysql_user = some v → v ≠ "" → (SetDefault d.decode).MySQL.User = v) ∧
     (∀ v, d.mysql_password = some v → v ≠ "" → (SetDefault d.decode).MySQL.Password = v) ∧
     (∀ v, d.mysql_dbname = some v → v ≠ "" → (SetDefault d.decode).MySQL.DBName = v) ∧
     (∀ v, d.sqlite_filename = some v → v ≠ "" → (SetDefault d.decode).Sqlite.FileName = v)) ∧
    ((d.server_port = none ∨ d.server_port = some 0 → (SetDefault d.decode).Server.Port = 8080) ∧
     (d.server_host = none ∨ d.server_host = some "" →
        (SetDefault d.decode).Server.Host = "0.0.0.0") ∧
     (d.server_timeout = none ∨ d.server_timeout = some "" →
        (SetDefault d.decode).Server.Timeout = "5s") ∧
     (d.server_dbtype = none ∨ d.server_dbtype = some "" →
        (SetDefault d.decode).Server.DBType = "mysql") ∧
     (d.logs_level = none ∨ d.logs_level = some "" → (SetDefault d.decode).Logs.Level = "info") ∧
     (d.logs_dir = none ∨ d.logs_dir = some "" → (SetDefault d.decode).Logs.Dir = "logs/") ∧
     (d.lumberjack_filename = none ∨ d.lumberjack_filename = some "" →
        (SetDefault d.decode).Logs.Lumberjack.Filename = "openCMD.log") ∧
     (d.logs_format = none ∨ d.logs_format = some "" →
        (SetDefault d.decode).Logs.Format = "json") ∧
     (d.lumberjack_maxsize = none ∨ d.lumberjack_maxsize = some 0 →
        (SetDefault d.decode).Logs.Lumberjack.MaxSize = 100) ∧
     (d.lumberjack_maxbackups = none ∨ d.lumberjack_maxbackups = some 0 →
        (SetDefault d.decode).Logs.Lumberjack.MaxBackups = 7) ∧
     (d.lumberjack_maxage = none ∨ d.lumberjack_maxage = some 0 →
        (SetDefault d.decode).Logs.Lumberjack.MaxAge = 7) ∧
     (d.logs_console = none → (SetDefault d.decode).Logs.Console = true) ∧
     (d.lumberjack_rotate = none → (SetDefault d.decode).Logs.Lumberjack.Rotate = true) ∧
     (d.lumberjack_compress = none → (SetDefault d.decode).Logs.Lumberjack.Compress = true) ∧
     ((SetDefault d.decode).Server.DBType = "mysql" →
       (d.mysql_host = none ∨ d.mysql_host = some "" →
          (SetDefault d.decode).MySQL.Host = "localhost") ∧
       (d.mysql_port = none ∨ d.mysql_port = some 0 → (SetDefault d.decode).MySQL.Port = 3306) ∧
       (d.mysql_user = none ∨ d.mysql_user = some "" → (SetDefault d.decode).MySQL.User = "root") ∧
       (d.mysql_password = none ∨ d.mysql_password = some "" →
          (SetDefault d.decode).MySQL.Password = "123456") ∧
       (d.mysql_dbname = none ∨ d.mysql_dbname = some "" →
          (SetDefault d.decode).MySQL.DBName = "openCMD")) ∧
     ((SetDefault d.decode).Server.DBType = "sqlite" →
       d.sqlite_filename = none ∨ d.sqlite_filename = some "" →
         (SetDefault d.decode).Sqlite.FileName = "openCMD.db")) := by
  rw [SetDefault_Server, SetDefault_Logs, SetDefault_MySQL, SetDefault_Sqlite]
  by_cases h : d.decode.Server.DBType = "sqlite"
  · simp only [h, if_true]
    simp only [YamlDoc.decode, NewConfig] at h ⊢
    repeat' (first | apply And.intro | intro _)
    all_goals ((try casesm* _ ∨ _) <;> simp_all)
  · simp only [h, if_false]
    simp only [YamlDoc.decode, NewConfig] at h ⊢
    repeat' (first | apply And.intro | intro _)
    all_goals ((try casesm* _ ∨ _) <;> simp_all)

/-- A document that supplies port `9090` and level `"debug"` keeps both. -/
theorem SetDefault_keeps_nonzero_values_witness :
    (SetDefault explicitDoc.decode).Server.Port = 9090 ∧
    (SetDefault explicitDoc.decode).Logs.Level = "debug" :=
  ⟨(SetDefault_keeps_nonzero_values explicitDoc).1.1 9090 rfl (by decide),
   (SetDefault_keeps_nonzero_values explicitDoc).1.2.2.2.2.1 "debug" rfl (by decide)⟩

/-! ## Field merging -/

theorem Fields.get?_set {V : Type} (m : Fields V) (k : String) (v : V) (k1 : String) :
    Fields.get? (Fields.set m k v) k1 = if k = k1 then some v else Fields.get? m k1 := by
  induction m with
  | nil => simp [Fields.set, Fields.get?]
  | cons kv m ih =>
    obtain ⟨k0, v0⟩ := kv
    by_cases h0 : k0 = k
    · subst h0
      by_cases h1 : k0 = k1 <;> simp [Fields.set, Fields.get?, h1]
    · by_cases h1 : k0 = k1
      · subst h1
        simp [Fields.set, Fields.get?, h0, Ne.symm h0]
      · simp [Fields.set, Fields.get?, h0, h1, ih]

theorem Fields.get?_isSome_iff {V : Type} (m : Fields V) (k : String) :
    (Fields.get? m k).isSome ↔ k ∈ Fields.keys m := by
  induction m with
  | nil => simp [Fields.get?, Fields.keys]
  | cons kv m ih =>
    obtain ⟨k0, v0⟩ := kv
    by_cases h0 : k0 = k
    · simp [Fields.get?, Fields.keys, h0]
    · have h0s : ¬ k = k0 := fun h => h0 h.symm
      simpa [Fields.get?, Fields.keys, h0, h0s] using ih

/-- The loop of `WithFields`: a key already in the map keeps its value, any
other key gets the value the global map has for it. -/
theorem mergeLoop_get? {V : Type} (g : Fields V) (fields : Fields V) (k : String) :
    Fields.get?
      (g.foldl
        (fun fields kv => if (Fields.get? fields kv.1).isNone then Fields.set fields kv.1 kv.2 else fields)
        fields) k
      = match Fields.get? fields k with
        | some v => some v
        | none => Fields.get? g k := by
  induction g generalizing fields with
  | nil => cases h : Fields.get? fields k <;> simp [Fields.get?, h]
  | cons kv g ih =>
    obtain ⟨k0, v0⟩ := kv
    rw [List.foldl_cons, ih]
    by_cases hk : k0 = k
    · subst hk
      cases h : Fields.get? fields k0 <;> simp [h, Fields.get?_set, Fields.get?]
    · cases h0 : Fields.get? fields k0 <;> simp [h0, Fields.get?_set, Fields.get?, hk]

theorem Fields.keys_set_of_get?_none {V : Type} (m : Fields V) (k : String) (v : V)
    (h : Fields.get? m k = none) : Fields.keys (Fields.set m k v) = Fields.keys m ++ [k] := by
  induction m with
  | nil => rfl
  | cons kv m ih =>
    obtain ⟨k0, v0⟩ := kv
    by_cases h0 : k0 = k
    · simp [Fields.get?, h0] at h
    · simp only [Fields.get?, h0, if_false] at h
      simp [Fields.set, Fields.keys, h0] at ih ⊢
      exact ih h

/-- The loop of `WithFields` keeps the keys of the map distinct. -/
theorem mergeLoop_nodup {V : Type} (g : Fields V) (fields : Fields V)
    (h : (Fields.keys fields).Nodup) :
    (Fields.keys
      (g.foldl
        (fun fields kv => if (Fields.get? fields kv.1).isNone then Fields.set fields kv.1 kv.2 else fields)
        fields)).Nodup := by
  induction g generalizing fields with
  | nil => exact h
  | cons kv g ih =>
    rw [List.foldl_cons]
    apply ih
    cases h0 : Fields.get? fields kv.1 with
    | some v => simpa [h0] using h
    | none =>
      have hk : kv.1 ∉ Fields.keys fields := by
        rw [← Fields.get?_isSome_iff, h0]
        simp
      simp only [h0, Option.isNone_none, if_true]
      rw [Fields.keys_set_of_get?_none _ _ _ h0]
      exact List.Nodup.append h (List.nodup_singleton _) (by simpa using hk)

/-- The merge keeps the keys of the call-specific map distinct. -/
theorem mergedFields_nodup {V : Type} (g f : Option (Fields V))
    (h : (Fields.keys (f.getD [])).Nodup) : (Fields.keys (mergedFields g f)).Nodup := by
  have hw : mergedFields g f =
      match g with
      | none => f.getD []
      | some g =>
        if g.length > 0 then
          g.foldl
            (fun fields kv =>
              if (Fields.get? fields kv.1).isNone then Fields.set fields kv.1 kv.2 else fields)
            (f.getD [])
        else f.getD [] := by
    cases f <;> rfl
  rw [hw]
  cases g with
  | none => exact h
  | some g =>
    by_cases hl : g.length > 0
    · simp only [hl, if_true]
      exact mergeLoop_nodup g _ h
    · simp only [hl, if_false]
      exact h

/-- The map handed to the logger: it has a key exactly when `f` or `g` has
it, a key of `f` has the value from `f`, a key only in `g` the value from `g`,
and no key occurs twice when none does in `f`. -/
theorem mergedFields_spec {V : Type} (g f : Option (Fields V)) :
    (∀ k : String, k ∈ Fields.keys (mergedFields g f) ↔
      k ∈ Fields.keys (f.getD []) ∨ k ∈ Fields.keys (g.getD [])) ∧
    (∀ (k : String) (v : V), Fields.get? (f.getD []) k = some v →
      Fields.get? (mergedFields g f) k = some v) ∧
    (∀ k : String, Fields.get? (f.getD []) k = none →
      Fields.get? (mergedFields g f) k = Fields.get? (g.getD []) k) ∧
    ((Fields.keys (f.getD [])).Nodup → (Fields.keys (mergedFields g f)).Nodup) := by
  have key : ∀ k : String, Fields.get? (mergedFields g f) k =
      match Fields.get? (f.getD []) k with
      | some v => some v
      | none => Fields.get? (g.getD []) k := by
    intro k
    have hf : (match f with | none => ([] : Fields V) | some f => f) = f.getD [] := by
      cases f <;> rfl
    unfold mergedFields
    simp only [hf]
    cases g with
    | none => cases h : Fields.get? (f.getD []) k <;> simp [Fields.get?, h]
    | some g =>
      by_cases hl : g.length > 0
      · simp only [hl, if_true, Option.getD_some]
        exact mergeLoop_get? g _ k
      · have hg : g = [] := by
          cases g with
          | nil => rfl
          | cons a t => simp at hl
        subst hg
        cases h : Fields.get? (f.getD []) k <;> simp [Fields.get?, h]
  refine ⟨fun k => ?_, fun k v h => ?_, fun k h => ?_, fun h => ?_⟩
  · rw [← Fields.get?_isSome_iff, ← Fields.get?_isSome_iff, ← Fields.get?_isSome_iff, key]
    cases h : Fields.get? (f.getD []) k <;> simp
  · rw [key, h]
  · rw [key, h]
  · exact mergedFields_nodup g f h


/-- Assigning to a key the map does not hold adds the pair at the end. -/
theorem Fields.set_of_get?_none {V : Type} (m : Fields V) (k : String) (v : V)
    (h : Fields.get? m k = none) : Fields.set m k v = m ++ [(k, v)] := by
  induction m with
  | nil => rfl
  | cons kv m ih =>
    obtain ⟨k0, v0⟩ := kv
    by_cases h0 : k0 = k
    · simp [Fields.get?, h0] at h
    · simp only [Fields.get?, h0, if_false] at h
      simp [Fields.set, h0, ih h]

/-- A key the map does not hold has no value. -/
theorem Fields.get?_of_not_mem {V : Type} (m : Fields V) (k : String)
    (h : k ∉ Fields.keys m) : Fields.get? m k = none := by
  rw [← Fields.get?_isSome_iff] at h
  cases hg : Fields.get? m k with
  | none => rfl
  | some v => simp [hg] at h

/-- The loop of the logger over a map with distinct keys, none of them yet in
`data`: the pairs whose value is not a function are added in order. -/
theorem logrusLoop_eq {V : Type} (isFunc : V → Bool) (fields data : Fields V)
    (hn : (Fields.keys fields).Nodup)
    (hd : ∀ k ∈ Fields.keys fields, Fields.get? data k = none) :
    fields.foldl (fun data kv => if isFunc kv.2 then data else Fields.set data kv.1 kv.2) data
      = data ++ fields.filter (fun kv => !isFunc kv.2) := by
  induction fields generalizing data with
  | nil => simp
  | cons kv fields ih =>
    obtain ⟨k0, v0⟩ := kv
    have hn0 : k0 ∉ Fields.keys fields := by
      simp only [Fields.keys, List.map_cons, List.nodup_cons] at hn
      exact hn.1
    have hn1 : (Fields.keys fields).Nodup := by
      simp only [Fields.keys, List.map_cons, List.nodup_cons] at hn
      exact hn.2
    have hd0 : Fields.get? data k0 = none := hd k0 (by simp [Fields.keys])
    rw [List.foldl_cons]
    by_cases hf : isFunc v0 = true
    · simp only [hf, if_true]
      rw [ih data hn1 (fun k hk => hd k (by simp [Fields.keys] at hk ⊢; exact Or.inr hk))]
      simp [List.filter_cons, hf]
    · have hf0 : isFunc v0 = false := by simpa using hf
      simp only [hf0, Bool.false_eq_true, if_false]
      rw [ih _ hn1]
      · rw [Fields.set_of_get?_none _ _ _ hd0]
        simp [List.filter_cons, hf0]
      · intro k hk
        rw [Fields.get?_set]
        have hne : k0 ≠ k := fun h => hn0 (h ▸ hk)
        simp only [hne, if_false]
        exact hd k (by simp [Fields.keys] at hk ⊢; exact Or.inr hk)

/-- Looking a key up after dropping the function values of a map with
distinct keys. -/
theorem Fields.get?_filter {V : Type} (isFunc : V → Bool) (m : Fields V) (k : String)
    (hn : (Fields.keys m).Nodup) :
    Fields.get? (m.filter (fun kv => !isFunc kv.2)) k
      = (Fields.get? m k).filter (fun v => !isFunc v) := by
  induction m with
  | nil => simp [Fields.get?]
  | cons kv m ih =>
    obtain ⟨k0, v0⟩ := kv
    have hn0 : k0 ∉ Fields.keys m := by
      simp only [Fields.keys, List.map_cons, List.nodup_cons] at hn
      exact hn.1
    have hn1 : (Fields.keys m).Nodup := by
      simp only [Fields.keys, List.map_cons, List.nodup_cons] at hn
      exact hn.2
    by_cases hk : k0 = k
    · subst hk
      by_cases hf : isFunc v0 = true
      · have h1 : Fields.get? (m.filter (fun kv => !isFunc kv.2)) k0 = none := by
          rw [ih hn1, Fields.get?_of_not_mem m k0 hn0]
          rfl
        simp [List.filter_cons, hf, Fields.get?, h1, Option.filter]
      · simp [List.filter_cons, hf, Fields.get?, Option.filter]
    · by_cases hf : isFunc v0 = true
      · simp [List.filter_cons, hf, Fields.get?, hk, ih hn1]
      · simp [List.filter_cons, hf, Fields.get?, hk, ih hn1]

/-- The entry's data is the merged map without its function values. -/
theorem WithFields_Data {V : Type} (isFunc : V → Bool) (g f : Option (Fields V))
    (hf : (Fields.keys (f.getD [])).Nodup) :
    (WithFields isFunc g f).Data = (mergedFields g f).filter (fun kv => !isFunc kv.2) := by
  have h := logrusLoop_eq isFunc (mergedFields g f) [] (mergedFields_nodup g f hf)
    (fun k _ => rfl)
  simpa [WithFields, logrusWithFields] using h

/-- `C8`, counterexample. The call-specific map `{"fn": <function>, "a": 1}`
has the key `"fn"`, and the entry `WithFields` returns for it (no global
fields) carries `{"a": 1}` only. -/
theorem WithFields_drops_function_values :
    "fn" ∈ Fields.keys ([("fn", Value.func 0), ("a", Value.int 1)] : Fields Value) ∧
    "fn" ∉ Fields.keys
      (WithFields Value.isFunc none (some [("fn", Value.func 0), ("a", Value.int 1)])).Data ∧
    (WithFields Value.isFunc none (some [("fn", Value.func 0), ("a", Value.int 1)])).Data
      = [("a", Value.int 1)] := by
  refine ⟨by decide, by decide, by rfl⟩

/-- `C8`, amended. For every call-specific map `f` (nil read as empty, keys
distinct as in any Go map) and every global map `g` (nil read as empty), in
whatever order `range` visits `g`: the map `WithFields` hands to the logger has
a key exactly when `f` or `g` has it, a key of `f` with the value from `f`, a
key only in `g` with the value from `g`; the field set on the returned entry is
that map without the pairs whose value is a function (or pointer to one), so
when no value is one the entry has exactly the keys of `f` and `g` with those
values; and `{"a":1}` with the global `{"a":2,"b":3}` gives `{"a":1,"b":3}`. -/
theorem WithFields_entry {V : Type} (isFunc : V → Bool) (g f : Option (Fields V))
    (hf : (Fields.keys (f.getD [])).Nodup) :
    ((∀ k : String, k ∈ Fields.keys (mergedFields g f) ↔
        k ∈ Fields.keys (f.getD []) ∨ k ∈ Fields.keys (g.getD [])) ∧
      (∀ (k : String) (v : V), Fields.get? (f.getD []) k = some v →
        Fields.get? (mergedFields g f) k = some v) ∧
      (∀ k : String, Fields.get? (f.getD []) k = none →
        Fields.get? (mergedFields g f) k = Fields.get? (g.getD []) k)) ∧
    ((WithFields isFunc g f).Data = (mergedFields g f).filter (fun kv => !isFunc kv.2) ∧
      (∀ k : String, Fields.get? (WithFields isFunc g f).Data k
        = (Fields.get? (mergedFields g f) k).filter (fun v => !isFunc v)) ∧
      (Fields.keys (WithFields isFunc g f).Data).Nodup) ∧
    ((∀ kv ∈ mergedFields g f, isFunc kv.2 = false) →
      (WithFields isFunc g f).Data = mergedFields g f ∧
      (∀ k : String, k ∈ Fields.keys (WithFields isFunc g f).Data ↔
        k ∈ Fields.keys (f.getD []) ∨ k ∈ Fields.keys (g.getD [])) ∧
      (∀ (k : String) (v : V), Fields.get? (f.getD []) k = some v →
        Fields.get? (WithFields isFunc g f).Data k = some v) ∧
      (∀ k : String, Fields.get? (f.getD []) k = none →
        Fields.get? (WithFields isFunc g f).Data k = Fields.get? (g.getD []) k)) ∧
    (WithFields (fun _ : Int => false) (some [("a", 2), ("b", 3)]) (some [("a", 1)])).Data
      = [("a", 1), ("b", 3)] := by
  have hm := mergedFields_spec g f
  have hD := WithFields_Data isFunc g f hf
  have hnd := mergedFields_nodup g f hf
  refine ⟨⟨hm.1, hm.2.1, hm.2.2.1⟩, ⟨hD, fun k => ?_, ?_⟩, fun hall => ?_, by rfl⟩
  · rw [hD]
    exact Fields.get?_filter isFunc _ k hnd
  · rw [hD]
    exact List.Nodup.sublist (List.Sublist.map _ (List.filter_sublist _)) hnd
  · have hE : (WithFields isFunc g f).Data = mergedFields g f := by
      rw [hD, List.filter_eq_self]
      intro kv hkv
      simp [hall kv hkv]
    rw [hE]
    exact ⟨rfl, hm.1, hm.2.1, hm.2.2.1⟩

/-- The amended statement at the example of the spec, where no value is a
function: the entry carries `a` from the call and `b` from the global map. -/
theorem WithFields_entry_witness :
    Fields.get? (WithFields (fun _ : Int => false) (some [("a", 2), ("b", 3)])
      (some [("a", 1)])).Data "a" = some 1 ∧
    Fields.get? (WithFields (fun _ : Int => false) (some [("a", 2), ("b", 3)])
      (some [("a", 1)])).Data "b" = some 3 := by
  have h := (WithFields_entry (fun _ : Int => false) (some [("a", 2), ("b", 3)])
    (some [("a", 1)]) (by decide)).2.2.1 (by decide)
  exact ⟨h.2.2.1 "a" 1 rfl, (h.2.2.2 "b" rfl).trans rfl⟩

/-! ## The database singletons -/

theorem InitMySQL_of_once (drv : Driver) (c : Option Config) (s : MySQLState)
    (h : s.once = true) : InitMySQL drv c s = s := by
  simp [InitMySQL, h]

theorem InitMySQL_once (drv : Driver) (c : Option Config) (s : MySQLState) :
    (InitMySQL drv c s).once = true := by
  by_cases h : s.once = true
  · simp [InitMySQL, h]
  · simp [InitMySQL, h]

theorem runInitMySQL_of_once (calls : List MySQLCall) (s : MySQLState) (h : s.once = true) :
    runInitMySQL calls s = s := by
  induction calls with
  | nil => rfl
  | cons call calls ih =>
    simp only [runInitMySQL, List.foldl_cons] at ih ⊢
    rw [InitMySQL_of_once _ _ _ h]
    exact ih

/-- The first `initDB` performs each kind of effect at most once. -/
theorem initDB_trace (drv : Driver) (c : Option Config) :
    ((initDB drv c MySQLState.init).1.trace.map DbEvent.tag).Nodup := by
  unfold initDB
  cases c with
  | none =>
    simp only [GetConfig, MySQLState.init]
    split
    · simp [DbEvent.tag]
    · split <;> simp [DbEvent.tag]
  | some cfg =>
    simp only [GetConfig, MySQLState.init]
    split
    · simp [DbEvent.tag]
    · split <;> simp [DbEvent.tag]

theorem InitSQLite_of_once (drv : Driver) (config : Option SqliteConfig) (s : SQLiteState)
    (h : s.sqliteOnce = true) :
    InitSQLite drv config s = ({ s with sqliteConfig := config }, s.sqliteInitErr) := by
  simp [InitSQLite, h]

theorem InitSQLite_once (drv : Driver) (config : Option SqliteConfig) (s : SQLiteState) :
    (InitSQLite drv config s).1.sqliteOnce = true ∧
    (InitSQLite drv config s).2 = (InitSQLite drv config s).1.sqliteInitErr := by
  by_cases h : s.sqliteOnce = true
  · simp [InitSQLite, h]
  · simp [InitSQLite, h]

theorem runInitSQLite_of_once (calls : List SQLiteCall) (s : SQLiteState)
    (h : s.sqliteOnce = true) :
    (runInitSQLite calls s).1.sqliteDB = s.sqliteDB ∧
    (runInitSQLite calls s).1.trace = s.trace ∧
    ∀ o ∈ (runInitSQLite calls s).2, o = s.sqliteInitErr := by
  induction calls generalizing s with
  | nil => simp [runInitSQLite]
  | cons call calls ih =>
    simp only [runInitSQLite, InitSQLite_of_once _ _ _ h]
    have := ih { s with sqliteConfig := call.config } h
    simpa using this

/-- The first `initSQLiteDB` performs each kind of effect at most once. -/
theorem initSQLiteDB_trace (drv : Driver) (config : Option SqliteConfig) :
    ((initSQLiteDB drv { SQLiteState.init with sqliteConfig := config }).1.trace.map
      DbEvent.tag).Nodup := by
  unfold initSQLiteDB
  cases config with
  | none => simp [SQLiteState.init]
  | some cfg =>
    simp only [SQLiteState.init]
    split
    · simp [DbEvent.tag]
    · split
      · simp [DbEvent.tag]
      · split <;> simp [DbEvent.tag]

/-- `C9`. From process start, for every first call and every sequence of later
calls: the MySQL state after the whole sequence is the state right after the
first call (same handle, no further effect); the SQLite handle and effects
after the whole sequence are those right after the first call; in both cases
each kind of effect (directory creation, connection open, each pool setting)
occurs at most once among all effects performed; and every later `InitSQLite`
call returns what the first call returned, whatever its argument. -/
theorem Init_idempotent (first : MySQLCall) (later : List MySQLCall)
    (firstS : SQLiteCall) (laterS : List SQLiteCall) :
    (runInitMySQL (first :: later) MySQLState.init
        = InitMySQL first.drv first.c MySQLState.init ∧
      GetDB (runInitMySQL (first :: later) MySQLState.init)
        = GetDB (InitMySQL first.drv first.c MySQLState.init) ∧
      ((runInitMySQL (first :: later) MySQLState.init).trace.map DbEvent.tag).Nodup) ∧
    ((runInitSQLite (firstS :: laterS) SQLiteState.init).1.sqliteDB
        = (InitSQLite firstS.drv firstS.config SQLiteState.init).1.sqliteDB ∧
      (runInitSQLite (firstS :: laterS) SQLiteState.init).1.trace
        = (InitSQLite firstS.drv firstS.config SQLiteState.init).1.trace ∧
      ((runInitSQLite (firstS :: laterS) SQLiteState.init).1.trace.map DbEvent.tag).Nodup ∧
      ∀ o ∈ (runInitSQLite (firstS :: laterS) SQLiteState.init).2,
        o = (InitSQLite firstS.drv firstS.config SQLiteState.init).2) := by
  have hm : runInitMySQL (first :: later) MySQLState.init
      = InitMySQL first.drv first.c MySQLState.init := by
    simp only [runInitMySQL, List.foldl_cons]
    exact runInitMySQL_of_once later _ (InitMySQL_once _ _ _)
  have hs := runInitSQLite_of_once laterS (InitSQLite firstS.drv firstS.config SQLiteState.init).1
    (InitSQLite_once _ _ _).1
  have hs2 := (InitSQLite_once firstS.drv firstS.config SQLiteState.init).2
  refine ⟨⟨hm, by rw [hm], ?_⟩, ?_, ?_, ?_, ?_⟩
  · rw [hm]
    have := initDB_trace first.drv first.c
    simpa [InitMySQL, MySQLState.init] using this
  · simpa [runInitSQLite] using hs.1
  · simpa [runInitSQLite] using hs.2.1
  · have ht : (runInitSQLite (firstS :: laterS) SQLiteState.init).1.trace
        = (InitSQLite firstS.drv firstS.config SQLiteState.init).1.trace := by
      simpa [runInitSQLite] using hs.2.1
    rw [ht]
    have := initSQLiteDB_trace firstS.drv firstS.config
    simpa [InitSQLite, SQLiteState.init] using this
  · intro o ho
    simp only [runInitSQLite, List.mem_cons] at ho
    rcases ho with ho | ho
    · exact ho
    · rw [hs2]
      exact hs.2.2 o ho

/-- Where the accessors do signal a missing initialisation: before any call;
after a first `InitSQLite` that returned an error without a handle having been
assigned; and, conversely, a first initialisation that returns no error leaves
the handle of the open step behind the accessor. -/
theorem accessors_signal (drv : Driver) (c : Option Config) (config : Option SqliteConfig) :
    GetDB MySQLState.init = none ∧
    GetSQLiteDB SQLiteState.init = (none, some "sqlite database not initialized") ∧
    ((InitSQLite drv config SQLiteState.init).1.sqliteDB = none →
      GetSQLiteDB (InitSQLite drv config SQLiteState.init).1
        = (none, some (((InitSQLite drv config SQLiteState.init).2).getD
            "sqlite database not initialized"))) ∧
    ((InitSQLite drv config SQLiteState.init).2 = none →
      ∃ db, GetSQLiteDB (InitSQLite drv config SQLiteState.init).1 = (some db, none)) ∧
    ((initDB drv c MySQLState.init).2 = none →
      ∃ db, GetDB (InitMySQL drv c MySQLState.init) = some db) := by
  refine ⟨rfl, rfl, ?_, ?_, ?_⟩
  · intro h
    have h2 := (InitSQLite_once drv config SQLiteState.init).2
    unfold GetSQLiteDB
    rw [h, h2]
    cases (InitSQLite drv config SQLiteState.init).1.sqliteInitErr <;> rfl
  · simp only [InitSQLite, SQLiteState.init, initSQLiteDB, GetSQLiteDB]
    cases config with
    | none => simp
    | some cfg =>
      simp only [Bool.false_eq_true, if_false]
      split
      · simp
      · split
        · simp
        · split <;> simp
  · simp only [InitMySQL, MySQLState.init, initDB, GetDB]
    cases c <;> simp only [GetConfig, Bool.false_eq_true, if_false]
    · split
      · simp
      · split <;> simp
    · split
      · simp
      · split <;> simp

/-- `C10`, the code at the failing input. The open step succeeds with handle
`1`, then `DB()` on the handle fails: `InitSQLite` returns the error
`failed to get database`, yet `GetSQLiteDB` returns handle `1` and no error;
`initDB` returns the same error, yet `GetDB` returns handle `1`. Likewise when
`gorm.Open` returns an error together with a non-nil handle. -/
theorem accessor_after_failed_init :
    ((InitSQLite poolFailDriver (some { FileName := "openCMD.db" }) SQLiteState.init).2
        = some "failed to get database: invalid db" ∧
      GetSQLiteDB (InitSQLite poolFailDriver (some { FileName := "openCMD.db" }) SQLiteState.init).1
        = (some 1, none)) ∧
    ((initDB poolFailDriver (some (SetDefault NewConfig)) MySQLState.init).2
        = some "failed to get database: invalid db" ∧
      GetDB (InitMySQL poolFailDriver (some (SetDefault NewConfig)) MySQLState.init) = some 1) ∧
    ((InitSQLite openFailDriver (some { FileName := "openCMD.db" }) SQLiteState.init).2
        = some "failed to connect to sqlite: connection refused" ∧
      GetSQLiteDB (InitSQLite openFailDriver (some { FileName := "openCMD.db" }) SQLiteState.init).1
        = (some 1, none)) ∧
    ((initDB openFailDriver (some (SetDefault NewConfig)) MySQLState.init).2
        = some "failed to connect to mysql: connection refused" ∧
      GetDB (InitMySQL openFailDriver (some (SetDefault NewConfig)) MySQLState.init) = some 1) := by
  refine ⟨⟨by rfl, by rfl⟩, ⟨by rfl, by rfl⟩, ⟨by rfl, by rfl⟩, ⟨by rfl, by rfl⟩⟩

/-- `C1`. `ValidateConfig` returns no error exactly when the server port lies in
`(0, 65535]`, the server host is non-empty, the MySQL host, user, password and
database name are non-empty and the MySQL port is non-zero; replacing the
database type by any other value (`"sqlite"` included) leaves the returned error
unchanged; and the struct behind the receiver is the same after the call. -/
theorem ValidateConfig_contract (c : Config) :
    ((ValidateConfig c).2 = none ↔
      (0 < c.Server.Port ∧ c.Server.Port ≤ 65535) ∧ c.Server.Host ≠ "" ∧
      c.MySQL.Host ≠ "" ∧ c.MySQL.User ≠ "" ∧ c.MySQL.Password ≠ "" ∧
      c.MySQL.DBName ≠ "" ∧ c.MySQL.Port ≠ 0) ∧
    (∀ t : String,
      (ValidateConfig { c with Server := { c.Server with DBType := t } }).2 = (ValidateConfig c).2) ∧
    (ValidateConfig c).1 = c := by
  refine ⟨validate_err_none_iff c, fun t => ?_, ?_⟩
  · simp only [ValidateConfig]
    split_ifs <;> rfl
  · exact ValidateConfig_fst c

/-- `C6`. After `SetDefault` the database type is `"mysql"` or `"sqlite"`; an
input equal to one of the two is kept, every other input (the empty string
included) becomes `"mysql"`; and whenever the input is not `"sqlite"` (so in
particular whenever it was coerced) the MySQL section holds the MySQL defaults
in every field the input left empty or zero. -/
theorem SetDefault_DBType (c : Config) :
    ((SetDefault c).Server.DBType = "mysql" ∨ (SetDefault c).Server.DBType = "sqlite") ∧
    (c.Server.DBType = "mysql" ∨ c.Server.DBType = "sqlite" →
      (SetDefault c).Server.DBType = c.Server.DBType) ∧
    (c.Server.DBType ≠ "mysql" ∧ c.Server.DBType ≠ "sqlite" →
      (SetDefault c).Server.DBType = "mysql" ∧
      (SetDefault c).MySQL =
        { Host := if c.MySQL.Host = "" then "localhost" else c.MySQL.Host
          Port := if c.MySQL.Port = 0 then 3306 else c.MySQL.Port
          User := if c.MySQL.User = "" then "root" else c.MySQL.User
          Password := if c.MySQL.Password = "" then "123456" else c.MySQL.Password
          DBName := if c.MySQL.DBName = "" then "openCMD" else c.MySQL.DBName }) := by
  rw [SetDefault_MySQL, SetDefault_Server]
  by_cases h : c.Server.DBType = "sqlite"
  · simp [h]
  · by_cases h1 : c.Server.DBType = "mysql" <;> simp [h, h1]

/-- A configuration with an unknown database type and an empty MySQL section is
coerced to `"mysql"` and receives all five MySQL defaults. -/
theorem SetDefault_DBType_witness :
    (SetDefault { NewConfig with Server := { NewConfig.Server with DBType := "postgres" } }).Server.DBType
        = "mysql" ∧
    (SetDefault { NewConfig with Server := { NewConfig.Server with DBType := "postgres" } }).MySQL
        = { Host := "localhost", Port := 3306, User := "root", Password := "123456",
            DBName := "openCMD" } := by
  have h := (SetDefault_DBType
    { NewConfig with Server := { NewConfig.Server with DBType := "postgres" } }).2.2
      ⟨by decide, by decide⟩
  simpa [NewConfig] using h

end OpenCMD
